import Mathlib

/-!
Verification of the Evidence Integrity Ledger of
`AI_based_cctv_multi_detection`, a shallow embedding of
`src/blockchain/contracts/EvidenceRegistry.sol`.

The contract keeps two mappings, `registeredEvidence : bytes32 => Evidence`
and `isEvidenceRegistered : bytes32 => bool`.  We model `bytes32`, addresses
and `uint256` as `Nat`, the per-transaction EVM environment (`msg.sender`,
`block.timestamp`, `block.number`, `blockhash(block.number - 1)`) as an
explicit `Env` record, reverting calls as `Except String`, and a reverted
call as leaving the contract state unchanged (EVM rollback).
-/

namespace EvidenceRegistry

/-- The `Evidence` struct of the contract (EvidenceRegistry.sol, lines 5-12). -/
structure Evidence where
  evidenceHash : Nat
  metadata : String
  owner : Nat
  timestamp : Nat
  blockNumber : Nat
  transactionHash : Nat
  deriving Repr, DecidableEq

/-- The contract storage: the two mappings declared at lines 14-15.
Solidity mappings are total with zero-valued defaults, so we model each as a
total function. -/
structure RegistryState where
  registeredEvidence : Nat → Evidence
  isEvidenceRegistered : Nat → Bool

/-- Storage of a freshly deployed contract: both mappings hold default
(zero) values everywhere. -/
def initialState : RegistryState where
  registeredEvidence := fun _ => ⟨0, "", 0, 0, 0, 0⟩
  isEvidenceRegistered := fun _ => false

/-- The per-transaction EVM environment observed by a call: `msg.sender`,
`block.timestamp`, `block.number` and `blockhash(block.number - 1)`. -/
structure Env where
  sender : Nat
  timestamp : Nat
  blockNumber : Nat
  prevBlockhash : Nat
  deriving Repr, DecidableEq

/-- `registerEvidence` (lines 25-44): reverts with
"Evidence already registered." when the fingerprint is present, otherwise
stores `Evidence(_evidenceHash, _metadata, msg.sender, block.timestamp,
block.number, blockhash(block.number - 1))`, marks the key registered and
returns `true`. -/
def registerEvidence (σ : RegistryState) (env : Env) (ehash : Nat)
    (metadata : String) : Except String (RegistryState × Bool) :=
  if σ.isEvidenceRegistered ehash then
    .error "Evidence already registered."
  else
    let txHash := env.prevBlockhash
    let ev : Evidence :=
      ⟨ehash, metadata, env.sender, env.timestamp, env.blockNumber, txHash⟩
    let σ' : RegistryState :=
      { registeredEvidence := fun k =>
          if k = ehash then ev else σ.registeredEvidence k
        isEvidenceRegistered := fun k =>
          if k = ehash then true else σ.isEvidenceRegistered k }
    .ok (σ', true)

/-- `verifyEvidence` (lines 46-57): reverts with "Evidence not found." when
the fingerprint is absent, otherwise returns the stored record's six fields.
It is a `view` function and cannot write storage. -/
def verifyEvidence (σ : RegistryState) (ehash : Nat) :
    Except String (Nat × String × Nat × Nat × Nat × Nat) :=
  if σ.isEvidenceRegistered ehash then
    let ev := σ.registeredEvidence ehash
    .ok (ev.evidenceHash, ev.metadata, ev.owner, ev.timestamp,
         ev.blockNumber, ev.transactionHash)
  else
    .error "Evidence not found."

/-- The contract's externally callable operations. -/
inductive Op where
  | register (env : Env) (ehash : Nat) (metadata : String)
  | verify (ehash : Nat)

/-- State transition of one external call.  A successful `registerEvidence`
installs the new storage; a reverted call rolls back to the pre-state; the
`view` function `verifyEvidence` never writes storage. -/
def applyOp (σ : RegistryState) : Op → RegistryState
  | .register env h m =>
    match registerEvidence σ env h m with
    | .ok (σ', _) => σ'
    | .error _ => σ
  | .verify _ => σ

/-- Run a sequence of external calls from a given storage state. -/
def runOps (σ : RegistryState) : List Op → RegistryState
  | [] => σ
  | op :: rest => runOps (applyOp σ op) rest

/-- Whether an operation is a `registerEvidence` call for fingerprint `f`. -/
def registersFp (op : Op) (f : Nat) : Bool :=
  match op with
  | .register _ h _ => h = f
  | .verify _ => false

/-- Run a sequence of `registerEvidence` calls (each with its own
environment) and collect, in order, the fingerprint and stored
`blockNumber` (the ledger-assigned position) of each successful
registration; reverted calls leave the state unchanged and contribute
nothing. -/
def runRegs (σ : RegistryState) : List (Env × Nat × String) → List (Nat × Nat)
  | [] => []
  | c :: rest =>
    match registerEvidence σ c.1 c.2.1 c.2.2 with
    | .ok (σ', _) => (c.2.1, c.1.blockNumber) :: runRegs σ' rest
    | .error _ => runRegs σ rest

lemma registerEvidence_of_registered (σ : RegistryState) (env : Env)
    (f : Nat) (m : String) (h : σ.isEvidenceRegistered f = true) :
    registerEvidence σ env f m = .error "Evidence already registered." := by
  simp [registerEvidence, h]

lemma registerEvidence_of_unregistered (σ : RegistryState) (env : Env)
    (f : Nat) (m : String) (h : σ.isEvidenceRegistered f = false) :
    registerEvidence σ env f m =
      .ok ({ registeredEvidence := fun k =>
               if k = f then ⟨f, m, env.sender, env.timestamp,
                              env.blockNumber, env.prevBlockhash⟩
               else σ.registeredEvidence k
             isEvidenceRegistered := fun k =>
               if k = f then true else σ.isEvidenceRegistered k }, true) := by
  simp [registerEvidence, h]

lemma applyOp_register_of_unregistered (σ : RegistryState) (env : Env)
    (f : Nat) (m : String) (h : σ.isEvidenceRegistered f = false) :
    applyOp σ (.register env f m) =
      { registeredEvidence := fun k =>
          if k = f then ⟨f, m, env.sender, env.timestamp,
                         env.blockNumber, env.prevBlockhash⟩
          else σ.registeredEvidence k
        isEvidenceRegistered := fun k =>
          if k = f then true else σ.isEvidenceRegistered k } := by
  simp [applyOp, registerEvidence_of_unregistered σ env f m h]

lemma applyOp_register_of_registered (σ : RegistryState) (env : Env)
    (f : Nat) (m : String) (h : σ.isEvidenceRegistered f = true) :
    applyOp σ (.register env f m) = σ := by
  simp [applyOp, registerEvidence_of_registered σ env f m h]

/-- C1: once a fingerprint is registered, every later operation preserves
both its registered flag and its stored record (no update, no delete), and
`registerEvidence` on it reverts: the only transition for a key is
Unregistered to Registered. -/
theorem registered_is_terminal (σ : RegistryState) (op : Op) (k : Nat)
    (env : Env) (m : String) (h : σ.isEvidenceRegistered k = true) :
    (applyOp σ op).isEvidenceRegistered k = true ∧
    (applyOp σ op).registeredEvidence k = σ.registeredEvidence k ∧
    registerEvidence σ env k m = .error "Evidence already registered." := by
  refine ⟨?_, ?_, registerEvidence_of_registered σ env k m h⟩ <;>
  · cases op with
    | register env' h' m' =>
      rcases hr : σ.isEvidenceRegistered h' with _ | _
      · have hne : k ≠ h' := by
          intro e; rw [e] at h; rw [h] at hr; exact Bool.true_eq_false.mp hr
        rw [applyOp_register_of_unregistered σ env' h' m' hr]
        simp [hne, h]
      · rw [applyOp_register_of_registered σ env' h' m' hr]
        all_goals exact h
    | verify f => all_goals first | exact h | rfl

theorem registered_is_terminal_witness :
    ((applyOp (applyOp initialState (.register ⟨7, 100, 5, 99⟩ 1 "m1"))
        (Op.register ⟨8, 101, 6, 98⟩ 1 "m2")).isEvidenceRegistered 1 = true ∧
     (applyOp (applyOp initialState (.register ⟨7, 100, 5, 99⟩ 1 "m1"))
        (Op.register ⟨8, 101, 6, 98⟩ 1 "m2")).registeredEvidence 1 =
       (applyOp initialState
          (.register ⟨7, 100, 5, 99⟩ 1 "m1")).registeredEvidence 1 ∧
     registerEvidence (applyOp initialState (.register ⟨7, 100, 5, 99⟩ 1 "m1"))
        ⟨8, 101, 6, 98⟩ 1 "m2" = .error "Evidence already registered.") :=
  registered_is_terminal
    (applyOp initialState (.register ⟨7, 100, 5, 99⟩ 1 "m1"))
    (Op.register ⟨8, 101, 6, 98⟩ 1 "m2") 1 ⟨8, 101, 6, 98⟩ "m2" rfl

/-- C2: a second `registerEvidence` on the same fingerprint reverts with
"Evidence already registered.", leaves the contract state unchanged, and the
stored record afterwards is exactly the one created by the first call (same
`blockNumber` position and `timestamp`). -/
theorem double_register_rejected (σ : RegistryState) (env1 env2 : Env)
    (f : Nat) (m1 m2 : String) (h : σ.isEvidenceRegistered f = false) :
    registerEvidence σ env1 f m1 =
      .ok (applyOp σ (.register env1 f m1), true) ∧
    registerEvidence (applyOp σ (.register env1 f m1)) env2 f m2 =
      .error "Evidence already registered." ∧
    applyOp (applyOp σ (.register env1 f m1)) (Op.register env2 f m2) =
      applyOp σ (.register env1 f m1) ∧
    (applyOp σ (.register env1 f m1)).registeredEvidence f =
      ⟨f, m1, env1.sender, env1.timestamp, env1.blockNumber,
       env1.prevBlockhash⟩ := by
  have h1 := applyOp_register_of_unregistered σ env1 f m1 h
  have hreg : (applyOp σ (.register env1 f m1)).isEvidenceRegistered f
      = true := by rw [h1]; simp
  refine ⟨?_, registerEvidence_of_registered _ env2 f m2 hreg,
    applyOp_register_of_registered _ env2 f m2 hreg, ?_⟩
  · rw [registerEvidence_of_unregistered σ env1 f m1 h, h1]
  · rw [h1]; simp

theorem double_register_rejected_witness :
    (registerEvidence initialState ⟨7, 100, 5, 99⟩ 1 "m1" =
       .ok (applyOp initialState (.register ⟨7, 100, 5, 99⟩ 1 "m1"), true) ∧
     registerEvidence (applyOp initialState (.register ⟨7, 100, 5, 99⟩ 1 "m1"))
        ⟨8, 101, 6, 98⟩ 1 "m2" = .error "Evidence already registered." ∧
     applyOp (applyOp initialState (.register ⟨7, 100, 5, 99⟩ 1 "m1"))
        (Op.register ⟨8, 101, 6, 98⟩ 1 "m2") =
       applyOp initialState (.register ⟨7, 100, 5, 99⟩ 1 "m1") ∧
     (applyOp initialState
        (.register ⟨7, 100, 5, 99⟩ 1 "m1")).registeredEvidence 1 =
       ⟨1, "m1", 7, 100, 5, 99⟩) :=
  double_register_rejected initialState ⟨7, 100, 5, 99⟩ ⟨8, 101, 6, 98⟩
    1 "m1" "m2" rfl

/-- C5: registering a fresh fingerprint and immediately verifying it returns
the stored record, whose metadata is the submitted metadata and whose owner
is the caller (`msg.sender`) that performed the registration. -/
theorem register_then_verify (σ : RegistryState) (env : Env) (f : Nat)
    (m : String) (h : σ.isEvidenceRegistered f = false) :
    verifyEvidence (applyOp σ (.register env f m)) f =
      .ok (f, m, env.sender, env.timestamp, env.blockNumber,
           env.prevBlockhash) := by
  rw [applyOp_register_of_unregistered σ env f m h]
  simp [verifyEvidence]

theorem register_then_verify_witness :
    verifyEvidence (applyOp initialState (.register ⟨7, 100, 5, 99⟩ 1 "m1")) 1 =
      .ok (1, "m1", 7, 100, 5, 99) :=
  register_then_verify initialState ⟨7, 100, 5, 99⟩ 1 "m1" rfl

lemma runOps_not_registered (ops : List Op) (σ : RegistryState) (f : Nat)
    (hσ : σ.isEvidenceRegistered f = false)
    (h : ops.all (fun op => ! registersFp op f) = true) :
    (runOps σ ops).isEvidenceRegistered f = false := by
  induction ops generalizing σ with
  | nil => exact hσ
  | cons op rest ih =>
    rw [List.all_cons, Bool.and_eq_true] at h
    refine ih (applyOp σ op) ?_ h.2
    cases op with
    | register env h' m =>
      have hne : f ≠ h' := by
        have := h.1
        simp [registersFp] at this
        exact fun e => this e.symm
      rcases hr : σ.isEvidenceRegistered h' with _ | _
      · rw [applyOp_register_of_unregistered σ env h' m hr]
        simp [hne, hσ]
      · rw [applyOp_register_of_registered σ env h' m hr]; exact hσ
    | verify g => exact hσ

/-- C6: verifying a fingerprint that no operation of the run ever
registered reverts with "Evidence not found." instead of returning a
record. -/
theorem verify_unregistered_not_found (ops : List Op) (f : Nat)
    (h : ops.all (fun op => ! registersFp op f) = true) :
    verifyEvidence (runOps initialState ops) f =
      .error "Evidence not found." := by
  have := runOps_not_registered ops initialState f rfl h
  simp [verifyEvidence, this]

theorem verify_unregistered_not_found_witness :
    verifyEvidence
      (runOps initialState [.register ⟨7, 100, 5, 99⟩ 1 "m1", .verify 2]) 2 =
      .error "Evidence not found." :=
  verify_unregistered_not_found
    [.register ⟨7, 100, 5, 99⟩ 1 "m1", .verify 2] 2 (by decide)

/-- C8: `verifyEvidence` is a pure read: the verify step leaves the
contract state unchanged, and inserting a verify call anywhere into a run
of operations does not change the final state, whether or not the
fingerprint is found. -/
theorem verify_pure_read (σ : RegistryState) (f : Nat)
    (ops1 ops2 : List Op) :
    applyOp σ (.verify f) = σ ∧
    runOps σ (ops1 ++ Op.verify f :: ops2) = runOps σ (ops1 ++ ops2) := by
  refine ⟨rfl, ?_⟩
  induction ops1 generalizing σ with
  | nil => rfl
  | cons op rest ih => exact ih (applyOp σ op)

/-- C4: every successful registration stores
`blockhash(block.number - 1)` — the previous block's hash — in the
`transactionHash` field; two distinct registrations whose transactions see
the same previous-block hash store the same `transactionHash`, so the field
does not uniquely identify the registering transaction. -/
theorem transactionHash_is_placeholder (σ : RegistryState) (env1 env2 : Env)
    (f1 f2 : Nat) (m1 m2 : String)
    (h1 : σ.isEvidenceRegistered f1 = false)
    (h2 : σ.isEvidenceRegistered f2 = false)
    (hne : f1 ≠ f2)
    (hsame : env1.prevBlockhash = env2.prevBlockhash) :
    ((applyOp σ (.register env1 f1 m1)).registeredEvidence f1).transactionHash
      = env1.prevBlockhash ∧
    (applyOp (applyOp σ (.register env1 f1 m1))
       (.register env2 f2 m2)).isEvidenceRegistered f1 = true ∧
    (applyOp (applyOp σ (.register env1 f1 m1))
       (.register env2 f2 m2)).isEvidenceRegistered f2 = true ∧
    ((applyOp (applyOp σ (.register env1 f1 m1))
        (.register env2 f2 m2)).registeredEvidence f1).transactionHash =
      ((applyOp (applyOp σ (.register env1 f1 m1))
         (.register env2 f2 m2)).registeredEvidence f2).transactionHash := by
  have e1 := applyOp_register_of_unregistered σ env1 f1 m1 h1
  have h2' : (applyOp σ (.register env1 f1 m1)).isEvidenceRegistered f2
      = false := by rw [e1]; simp [hne.symm, h2]
  have e2 := applyOp_register_of_unregistered _ env2 f2 m2 h2'
  refine ⟨by rw [e1]; simp, ?_, ?_, ?_⟩
  · rw [e2, e1]; simp [hne]
  · rw [e2]; simp
  · rw [e2, e1]; simp [hne, hsame]

theorem transactionHash_is_placeholder_witness :
    (((applyOp initialState
        (.register ⟨7, 100, 5, 99⟩ 1 "m1")).registeredEvidence 1).transactionHash
       = (99 : Nat) ∧
     (applyOp (applyOp initialState (.register ⟨7, 100, 5, 99⟩ 1 "m1"))
        (.register ⟨8, 101, 5, 99⟩ 2 "m2")).isEvidenceRegistered 1 = true ∧
     (applyOp (applyOp initialState (.register ⟨7, 100, 5, 99⟩ 1 "m1"))
        (.register ⟨8, 101, 5, 99⟩ 2 "m2")).isEvidenceRegistered 2 = true ∧
     ((applyOp (applyOp initialState (.register ⟨7, 100, 5, 99⟩ 1 "m1"))
         (.register ⟨8, 101, 5, 99⟩ 2 "m2")).registeredEvidence 1).transactionHash =
       ((applyOp (applyOp initialState (.register ⟨7, 100, 5, 99⟩ 1 "m1"))
          (.register ⟨8, 101, 5, 99⟩ 2 "m2")).registeredEvidence 2).transactionHash) :=
  transactionHash_is_placeholder initialState ⟨7, 100, 5, 99⟩ ⟨8, 101, 5, 99⟩
    1 2 "m1" "m2" rfl rfl (by decide) rfl

/-- C7: the `owner` (registrant) and `timestamp` (registered_at) fields of a
stored record come from the transaction environment (`msg.sender`,
`block.timestamp`) observed by the ledger at registration time; the call's
arguments carry no registrant or timestamp, so records created under the
same environment from different caller-supplied fingerprints and metadata
get identical `owner` and `timestamp`. -/
theorem registrant_timestamp_ledger_assigned (σ : RegistryState) (env : Env)
    (f f' : Nat) (m m' : String)
    (h : σ.isEvidenceRegistered f = false)
    (h' : σ.isEvidenceRegistered f' = false) :
    ((applyOp σ (.register env f m)).registeredEvidence f).owner
      = env.sender ∧
    ((applyOp σ (.register env f m)).registeredEvidence f).timestamp
      = env.timestamp ∧
    ((applyOp σ (.register env f m)).registeredEvidence f).owner =
      ((applyOp σ (.register env f' m')).registeredEvidence f').owner ∧
    ((applyOp σ (.register env f m)).registeredEvidence f).timestamp =
      ((applyOp σ (.register env f' m')).registeredEvidence f').timestamp := by
  rw [applyOp_register_of_unregistered σ env f m h,
      applyOp_register_of_unregistered σ env f' m' h']
  simp

theorem registrant_timestamp_ledger_assigned_witness :
    (((applyOp initialState
        (.register ⟨7, 100, 5, 99⟩ 1 "m1")).registeredEvidence 1).owner
       = (7 : Nat) ∧
     ((applyOp initialState
        (.register ⟨7, 100, 5, 99⟩ 1 "m1")).registeredEvidence 1).timestamp
       = (100 : Nat) ∧
     ((applyOp initialState
         (.register ⟨7, 100, 5, 99⟩ 1 "m1")).registeredEvidence 1).owner =
       ((applyOp initialState
          (.register ⟨7, 100, 5, 99⟩ 2 "m2")).registeredEvidence 2).owner ∧
     ((applyOp initialState
         (.register ⟨7, 100, 5, 99⟩ 1 "m1")).registeredEvidence 1).timestamp =
       ((applyOp initialState
          (.register ⟨7, 100, 5, 99⟩ 2 "m2")).registeredEvidence 2).timestamp) :=
  registrant_timestamp_ledger_assigned initialState ⟨7, 100, 5, 99⟩
    1 2 "m1" "m2" rfl rfl

/-- C10: `registerEvidence` reverts exactly when the fingerprint is already
registered — its only `require` is the presence check — and in particular
the all-zero fingerprint with empty metadata is accepted from a fresh
contract like any other input. -/
theorem register_fails_iff_registered (σ : RegistryState) (env : Env)
    (f : Nat) (m : String) :
    (registerEvidence σ env f m = .error "Evidence already registered."
       ↔ σ.isEvidenceRegistered f = true) ∧
    registerEvidence initialState env 0 "" =
      .ok (applyOp initialState (.register env 0 ""), true) := by
  refine ⟨⟨fun he => ?_, registerEvidence_of_registered σ env f m⟩,
    registerEvidence_of_unregistered initialState env 0 "" rfl |>.trans ?_⟩
  · rcases hr : σ.isEvidenceRegistered f with _ | _
    · rw [registerEvidence_of_unregistered σ env f m hr] at he
      exact absurd he (by simp)
    · rfl
  · rw [applyOp_register_of_unregistered initialState env 0 "" rfl]

/-- C3 counterexample: the contract stores `block.number` as the position,
so two successful registrations whose transactions land in the same block
(here block 5) both store position 5: positions are not strictly increasing
per registration and two records share a position. -/
theorem shared_position_counterexample :
    (applyOp (applyOp initialState (.register ⟨7, 100, 5, 99⟩ 1 "m1"))
       (.register ⟨8, 101, 5, 99⟩ 2 "m2")).isEvidenceRegistered 1 = true ∧
    (applyOp (applyOp initialState (.register ⟨7, 100, 5, 99⟩ 1 "m1"))
       (.register ⟨8, 101, 5, 99⟩ 2 "m2")).isEvidenceRegistered 2 = true ∧
    ((applyOp (applyOp initialState (.register ⟨7, 100, 5, 99⟩ 1 "m1"))
        (.register ⟨8, 101, 5, 99⟩ 2 "m2")).registeredEvidence 1).blockNumber
      = 5 ∧
    ((applyOp (applyOp initialState (.register ⟨7, 100, 5, 99⟩ 1 "m1"))
        (.register ⟨8, 101, 5, 99⟩ 2 "m2")).registeredEvidence 2).blockNumber
      = 5 ∧
    runRegs initialState
        [(⟨7, 100, 5, 99⟩, 1, "m1"), (⟨8, 101, 5, 99⟩, 2, "m2")] =
      [(1, 5), (2, 5)] := by
  refine ⟨?_, ?_, ?_, ?_, ?_⟩ <;> rfl

lemma mem_runRegs (σ : RegistryState) (calls : List (Env × Nat × String))
    (p : Nat × Nat) (hp : p ∈ runRegs σ calls) :
    ∃ c ∈ calls, p.2 = c.1.blockNumber := by
  induction calls generalizing σ with
  | nil => simp [runRegs] at hp
  | cons c rest ih =>
    rw [runRegs] at hp
    rcases hr : registerEvidence σ c.1 c.2.1 c.2.2 with _ | ok
    · rw [hr] at hp
      obtain ⟨c', hc', he⟩ := ih σ hp
      exact ⟨c', List.mem_cons_of_mem c hc', he⟩
    · rw [hr] at hp
      rcases List.mem_cons.mp hp with he | hp'
      · exact ⟨c, List.mem_cons_self c rest, by rw [he]⟩
      · obtain ⟨c', hc', he⟩ := ih ok.1 hp'
        exact ⟨c', List.mem_cons_of_mem c hc', he⟩

/-- C3 amended: positions are a per-call copy of `block.number`, so they
are strictly increasing and pairwise distinct across successful
registrations provided every call in the sequence occurs in a strictly
later block than each earlier call; two calls in the same block share a
position (see the counterexample). -/
theorem positions_increasing_across_blocks (σ : RegistryState)
    (calls : List (Env × Nat × String))
    (hmono : calls.Pairwise
      (fun a b => a.1.blockNumber < b.1.blockNumber)) :
    (runRegs σ calls).Pairwise (fun p q => p.2 < q.2) ∧
    (runRegs σ calls).Pairwise (fun p q => p.2 ≠ q.2) := by
  have key : ∀ τ : RegistryState,
      (runRegs τ calls).Pairwise (fun p q => p.2 < q.2) := by
    induction calls with
    | nil => intro τ; simp [runRegs]
    | cons c rest ih =>
      intro τ
      rw [List.pairwise_cons] at hmono
      rw [runRegs]
      rcases hr : registerEvidence τ c.1 c.2.1 c.2.2 with _ | ok
      · exact ih hmono.2 τ
      · refine List.pairwise_cons.mpr ⟨?_, ih hmono.2 ok.1⟩
        intro q hq
        obtain ⟨c', hc', he⟩ := mem_runRegs ok.1 rest q hq
        rw [he]
        exact hmono.1 c' hc'
  exact ⟨key σ, (key σ).imp Nat.ne_of_lt⟩

theorem positions_increasing_across_blocks_witness :
    ((runRegs initialState
        [(⟨7, 100, 5, 99⟩, 1, "m1"),
         (⟨8, 101, 6, 98⟩, 2, "m2")]).Pairwise (fun p q => p.2 < q.2) ∧
     (runRegs initialState
        [(⟨7, 100, 5, 99⟩, 1, "m1"),
         (⟨8, 101, 6, 98⟩, 2, "m2")]).Pairwise (fun p q => p.2 ≠ q.2)) :=
  positions_increasing_across_blocks initialState
    [(⟨7, 100, 5, 99⟩, 1, "m1"), (⟨8, 101, 6, 98⟩, 2, "m2")] (by decide)

end EvidenceRegistry

namespace RegistrationClient

open EvidenceRegistry

/-- Modelled from the spec: the repository ships no RegistrationClient
implementation (src/ holds only the contract, its tests and UI callers).
The spec's `Outcome` type: `submit` returns exactly one of
`Anchored(receipt)`, `PendingLocal(local_receipt)` or `Rejected(reason)` —
there is no constructor for a raw network failure. -/
inductive Outcome where
  | anchored (fingerprint : Nat)
  | pendingLocal (fingerprint : Nat)
  | rejected (reason : String)
  deriving Repr, DecidableEq

/-- Modelled from the spec: the client's local state — the set of
fingerprints it has itself attempted (for idempotent-retry detection) and
the local fallback store of records pending reconciliation. -/
structure ClientState where
  attempted : List Nat
  fallbackStore : List (Nat × String × Nat)
  deriving Repr, DecidableEq

/-- Modelled from the spec: the FingerprintComputer, absent from src/ — a
deterministic digest over the evidence bytes and the metadata bytes,
reduced modulo 2 ^ 256 to a fixed-width value. -/
def fingerprint (evidenceBytes : List Nat) (metadata : String) : Nat :=
  (evidenceBytes ++ metadata.data.map Char.toNat).foldl
    (fun a b => (a * 131 + b + 1) % 2 ^ 256) 7

/-- Modelled from the spec: `RegistrationClient.submit`, absent from src/.
Rejects empty evidence (`InvalidInput`) before any ledger interaction;
otherwise computes the fingerprint and, when the ledger is reachable,
calls `registerEvidence` (treating `AlreadyRegistered` as an idempotent
success for a fingerprint the client itself attempted, and as an anomaly
otherwise).  When the ledger is unreachable it does not propagate the
failure: it appends the record to the local fallback store and returns
`PendingLocal`. -/
def submit (ledgerReachable : Bool) (cs : ClientState) (σ : RegistryState)
    (env : Env) (evidenceBytes : List Nat) (metadata : String)
    (registrant : Nat) : ClientState × RegistryState × Outcome :=
  if evidenceBytes.isEmpty then
    (cs, σ, .rejected "InvalidInput")
  else
    let f := fingerprint evidenceBytes metadata
    if ledgerReachable then
      match registerEvidence σ env f metadata with
      | .ok (σ', _) =>
        ({ cs with attempted := f :: cs.attempted }, σ', .anchored f)
      | .error _ =>
        if cs.attempted.contains f then (cs, σ, .anchored f)
        else (cs, σ, .rejected "AlreadyRegistered")
    else
      ({ attempted := f :: cs.attempted,
         fallbackStore := (f, metadata, registrant) :: cs.fallbackStore },
       σ, .pendingLocal f)

/-- C9: when the ledger is unreachable, `submit` on non-empty evidence
returns `PendingLocal` (an `Outcome`, never a raw network failure), writes
the record to the local fallback store, and leaves the ledger state
untouched. -/
theorem submit_unreachable_pending_local (cs : ClientState)
    (σ : RegistryState) (env : Env) (evidenceBytes : List Nat)
    (metadata : String) (registrant : Nat)
    (h : evidenceBytes.isEmpty = false) :
    (submit false cs σ env evidenceBytes metadata registrant).2.2 =
      .pendingLocal (fingerprint evidenceBytes metadata) ∧
    (submit false cs σ env evidenceBytes metadata
       registrant).1.fallbackStore =
      (fingerprint evidenceBytes metadata, metadata, registrant)
        :: cs.fallbackStore ∧
    (submit false cs σ env evidenceBytes metadata registrant).2.1 = σ := by
  refine ⟨?_, ?_, ?_⟩ <;> simp [submit, h]

theorem submit_unreachable_pending_local_witness :
    ((submit false ⟨[], []⟩ initialState ⟨7, 100, 5, 99⟩ [1, 2] "m" 9).2.2 =
       .pendingLocal (fingerprint [1, 2] "m") ∧
     (submit false ⟨[], []⟩ initialState
        ⟨7, 100, 5, 99⟩ [1, 2] "m" 9).1.fallbackStore =
       [(fingerprint [1, 2] "m", "m", 9)] ∧
     (submit false ⟨[], []⟩ initialState
        ⟨7, 100, 5, 99⟩ [1, 2] "m" 9).2.1 = initialState) :=
  submit_unreachable_pending_local ⟨[], []⟩ initialState ⟨7, 100, 5, 99⟩
    [1, 2] "m" 9 rfl

end RegistrationClient
